import Mathlib

/-!
# RIMM / ROMM / ERIMM transfer functions and DSLR spectral sensitivities

A shallow embedding, over the real numbers, of
`colour/models/rgb/transfer_functions/rimm_romm_rgb.py` and of the lookup
contract of
`colour/characterisation/dataset/cameras/dslr/spectral_sensitivities.py`,
together with theorems settling the specification claims about them.

Floating-point values are modelled as real numbers.  The element-wise
branch-selection primitives of numpy are modelled exactly:

* `np.where(c, a, b)` keeps `a` where `c` holds and `b` elsewhere;
* `np.select(conds, values, default=0)` returns the value of the FIRST
  condition that holds, and the default `0` when none holds.

For the claims about IEEE special values (NaN, infinities) a second carrier
type `NpF` with explicit `nan` / `inf` / `ninf` elements is used; its
operations follow IEEE-754 / numpy semantics on the cases those claims
exercise.
-/

open Real

/-- Model of `np.where` applied element-wise: the first value where the
condition holds, the second elsewhere. -/
def npWhere {α : Type} (c : Prop) [Decidable c] (a b : α) : α :=
  if c then a else b

/-- Model of a four-condition `np.select(condlist, choicelist, default)`:
numpy selects the value of the FIRST condition in `condlist` that holds and
falls back to the default when none holds. -/
def npSelect4 {α : Type} (c1 c2 c3 c4 : Prop)
    [Decidable c1] [Decidable c2] [Decidable c3] [Decidable c4]
    (v1 v2 v3 v4 d : α) : α :=
  if c1 then v1 else if c2 then v2 else if c3 then v3 else if c4 then v4 else d

/-- Model of `np.round`: round half to even (banker's rounding), which is
what numpy uses for ties. -/
noncomputable def npRound (x : ℝ) : ℝ :=
  let f : ℤ := ⌊x⌋
  let r : ℝ := x - f
  if r < 1 / 2 then f
  else if 1 / 2 < r then f + 1
  else if Even f then (f : ℝ) else f + 1

/-- The threshold `E_t = 16 ** (1.8 / (1 - 1.8))` computed identically in
`oetf_ROMMRGB` and `eotf_ROMMRGB`. -/
noncomputable def E_t_ROMM : ℝ := (16 : ℝ) ^ ((1.8 : ℝ) / (1 - 1.8))

/-- `oetf_ROMMRGB(X, bit_depth=8, out_int=False)`: the ROMM RGB encoding
opto-electronic transfer function.  `I_max = 2 ** bit_depth - 1`;
`X_p = np.where(X < E_t, X * 16 * I_max, X ** (1 / 1.8) * I_max)`; rounded
when `out_int` else divided by `I_max`. -/
noncomputable def oetf_ROMMRGB (X : ℝ) (bit_depth : ℤ) (out_int : Bool) : ℝ :=
  let I_max : ℝ := 2 ^ bit_depth - 1
  let X_p : ℝ :=
    npWhere (X < E_t_ROMM) (X * 16 * I_max) (X ^ ((1 : ℝ) / 1.8) * I_max)
  if out_int then npRound X_p else X_p / I_max

/-- `eotf_ROMMRGB(X_p, bit_depth=8, in_int=False)`: the ROMM RGB decoding
electro-optical transfer function.  The input is scaled by `I_max` unless
`in_int`; then
`X = np.where(X_p < 16 * E_t * I_max, X_p / (16 * I_max), (X_p / I_max) ** 1.8)`. -/
noncomputable def eotf_ROMMRGB (X_p0 : ℝ) (bit_depth : ℤ) (in_int : Bool) : ℝ :=
  let I_max : ℝ := 2 ^ bit_depth - 1
  let X_p : ℝ := if in_int then X_p0 else X_p0 * I_max
  npWhere (X_p < 16 * E_t_ROMM * I_max) (X_p / (16 * I_max))
    ((X_p / I_max) ^ (1.8 : ℝ))

/-- `oetf_ProPhotoRGB = oetf_ROMMRGB` (module-level alias in the source). -/
noncomputable def oetf_ProPhotoRGB : ℝ → ℤ → Bool → ℝ := oetf_ROMMRGB

/-- `eotf_ProPhotoRGB = eotf_ROMMRGB` (module-level alias in the source). -/
noncomputable def eotf_ProPhotoRGB : ℝ → ℤ → Bool → ℝ := eotf_ROMMRGB

/-- `oetf_RIMMRGB(X, bit_depth=8, out_int=False, E_clip=2.0)`: the RIMM RGB
encoding opto-electronic transfer function.
`X_p_RIMM = np.select([X < 0.0, X < 0.018, X >= 0.018, X > E_clip],
[0, 4.5 * X, 1.099 * (X ** 0.45) - 0.099, I_max])`, multiplied by
`q = I_max / V_clip` with `V_clip = 1.099 * E_clip ** 0.45 - 0.099`. -/
noncomputable def oetf_RIMMRGB (X : ℝ) (bit_depth : ℤ) (out_int : Bool)
    (E_clip : ℝ) : ℝ :=
  let I_max : ℝ := 2 ^ bit_depth - 1
  let V_clip : ℝ := 1.099 * E_clip ^ (0.45 : ℝ) - 0.099
  let q : ℝ := I_max / V_clip
  let X_p_RIMM : ℝ :=
    npSelect4 (X < 0.0) (X < 0.018) (X ≥ 0.018) (X > E_clip)
      0 (4.5 * X) (1.099 * X ^ (0.45 : ℝ) - 0.099) I_max 0
  let X_p_RIMM2 : ℝ := X_p_RIMM * q
  if out_int then npRound X_p_RIMM2 else X_p_RIMM2 / I_max

/-- `eotf_RIMMRGB(X_p, bit_depth=8, in_int=False, E_clip=2.0)`: the RIMM RGB
decoding electro-optical transfer function.  The knee threshold is obtained
by calling the forward function `oetf_RIMMRGB` on `0.018`:
`X_RIMM = np.where(X_p / I_max < oetf_RIMMRGB(0.018, bit_depth, E_clip=E_clip),
m / 4.5, ((m + 0.099) / 1.099) ** (1 / 0.45))` with `m = V_clip * X_p / I_max`. -/
noncomputable def eotf_RIMMRGB (X_p0 : ℝ) (bit_depth : ℤ) (in_int : Bool)
    (E_clip : ℝ) : ℝ :=
  let I_max : ℝ := 2 ^ bit_depth - 1
  let X_p : ℝ := if in_int then X_p0 else X_p0 * I_max
  let V_clip : ℝ := 1.099 * E_clip ^ (0.45 : ℝ) - 0.099
  let m : ℝ := V_clip * X_p / I_max
  npWhere (X_p / I_max < oetf_RIMMRGB 0.018 bit_depth false E_clip)
    (m / 4.5) (((m + 0.099) / 1.099) ^ ((1 : ℝ) / 0.45))

/-- `log_encoding_ERIMMRGB(X, bit_depth=8, out_int=False, E_min=0.001,
E_clip=316.2)`: the ERIMM RGB log encoding curve.  `E_t = np.exp(1) * E_min`;
`X_p = np.select([X < 0.0, X <= E_t, X > E_t, X > E_clip], [0, ramp, log, I_max])`. -/
noncomputable def log_encoding_ERIMMRGB (X : ℝ) (bit_depth : ℤ)
    (out_int : Bool) (E_min : ℝ) (E_clip : ℝ) : ℝ :=
  let I_max : ℝ := 2 ^ bit_depth - 1
  let E_t : ℝ := Real.exp 1 * E_min
  let X_p : ℝ :=
    npSelect4 (X < 0.0) (X ≤ E_t) (X > E_t) (X > E_clip)
      0
      (I_max * ((Real.log E_t - Real.log E_min) /
        (Real.log E_clip - Real.log E_min)) * (X / E_t))
      (I_max * ((Real.log X - Real.log E_min) /
        (Real.log E_clip - Real.log E_min)))
      I_max 0
  if out_int then npRound X_p else X_p / I_max

/-- `log_decoding_ERIMMRGB(X_p, bit_depth=8, in_int=False, E_min=0.001,
E_clip=316.2)`: the ERIMM RGB log decoding curve. -/
noncomputable def log_decoding_ERIMMRGB (X_p0 : ℝ) (bit_depth : ℤ)
    (in_int : Bool) (E_min : ℝ) (E_clip : ℝ) : ℝ :=
  let I_max : ℝ := 2 ^ bit_depth - 1
  let X_p : ℝ := if in_int then X_p0 else X_p0 * I_max
  let E_t : ℝ := Real.exp 1 * E_min
  npWhere
    (X_p ≤ I_max * ((Real.log E_t - Real.log E_min) /
      (Real.log E_clip - Real.log E_min)))
    (((Real.log E_clip - Real.log E_min) / (Real.log E_t - Real.log E_min)) *
      (X_p * E_t / I_max))
    (Real.exp (X_p / I_max * (Real.log E_clip - Real.log E_min) +
      Real.log E_min))

/-! ## IEEE special values

`NpF` models a numpy double as either NaN, an infinity, or a finite real.
The operations below follow IEEE-754 / numpy semantics; comparisons with
NaN are false, and arithmetic on NaN yields NaN. -/

/-- A numpy floating-point element: NaN, `+inf`, `-inf` or a finite real. -/
inductive NpF : Type where
  | nan : NpF
  | inf : NpF
  | ninf : NpF
  | fin : ℝ → NpF

namespace NpF

/-- IEEE `<`: false whenever an operand is NaN. -/
def lt : NpF → NpF → Prop
  | nan, _ => False
  | _, nan => False
  | inf, _ => False
  | ninf, ninf => False
  | ninf, _ => True
  | fin _, inf => True
  | fin _, ninf => False
  | fin a, fin b => a < b

/-- IEEE `<=`: false whenever an operand is NaN. -/
def le : NpF → NpF → Prop
  | nan, _ => False
  | _, nan => False
  | inf, inf => True
  | inf, _ => False
  | ninf, _ => True
  | fin _, inf => True
  | fin _, ninf => False
  | fin a, fin b => a ≤ b

noncomputable instance : ∀ a b : NpF, Decidable (lt a b) := by
  intro a b
  cases a <;> cases b <;> simp only [lt] <;> infer_instance

noncomputable instance : ∀ a b : NpF, Decidable (le a b) := by
  intro a b
  cases a <;> cases b <;> simp only [le] <;> infer_instance

/-- IEEE addition. -/
def add : NpF → NpF → NpF
  | nan, _ => nan
  | _, nan => nan
  | inf, ninf => nan
  | ninf, inf => nan
  | inf, _ => inf
  | _, inf => inf
  | ninf, _ => ninf
  | _, ninf => ninf
  | fin a, fin b => fin (a + b)

/-- IEEE negation. -/
def neg : NpF → NpF
  | nan => nan
  | inf => ninf
  | ninf => inf
  | fin a => fin (-a)

/-- IEEE subtraction. -/
def sub (a b : NpF) : NpF := add a (neg b)

/-- IEEE multiplication (`inf * 0 = nan`). -/
noncomputable def mul : NpF → NpF → NpF
  | nan, _ => nan
  | _, nan => nan
  | inf, inf => inf
  | inf, ninf => ninf
  | ninf, inf => ninf
  | ninf, ninf => inf
  | inf, fin b => if 0 < b then inf else if b < 0 then ninf else nan
  | fin a, inf => if 0 < a then inf else if a < 0 then ninf else nan
  | ninf, fin b => if 0 < b then ninf else if b < 0 then inf else nan
  | fin a, ninf => if 0 < a then ninf else if a < 0 then inf else nan
  | fin a, fin b => fin (a * b)

/-- IEEE division (`0 / 0 = nan`, `x / 0 = ±inf` for `x ≠ 0`,
`inf / inf = nan`; finite zeros are unsigned here, so `inf / 0 = inf`). -/
noncomputable def div : NpF → NpF → NpF
  | nan, _ => nan
  | _, nan => nan
  | inf, inf => nan
  | inf, ninf => nan
  | ninf, inf => nan
  | ninf, ninf => nan
  | inf, fin b => if 0 ≤ b then inf else ninf
  | ninf, fin b => if 0 ≤ b then ninf else inf
  | fin _, inf => fin 0
  | fin _, ninf => fin 0
  | fin a, fin b =>
      if b = 0 then (if a = 0 then nan else if 0 < a then inf else ninf)
      else fin (a / b)

instance : Add NpF := ⟨add⟩
instance : Neg NpF := ⟨neg⟩
instance : Sub NpF := ⟨sub⟩
noncomputable instance : Mul NpF := ⟨mul⟩
noncomputable instance : Div NpF := ⟨div⟩

/-- Power with a scalar real exponent, as in `X ** 0.45`.
IEEE / numpy semantics: any base to the power `0` is `1` (numpy gives
`nan ** 0 = 1.0`); NaN propagates otherwise; `(+-inf) ** y` is `inf` for
`y > 0` and `0` for `y < 0` (for the non-odd-integer exponents used in this
module); a negative finite base with the non-integral exponents used in this
module yields NaN in numpy; `0 ** y = inf` for `y < 0`. -/
noncomputable def powr : NpF → ℝ → NpF
  | x, y =>
    if y = 0 then fin 1
    else
      match x with
      | nan => nan
      | inf => if 0 < y then inf else fin 0
      | ninf => if 0 < y then inf else fin 0
      | fin a =>
          if a < 0 then nan
          else if a = 0 ∧ y < 0 then inf
          else fin (a ^ y)

/-- `np.log` element-wise: `log nan = nan`, `log inf = inf`,
`log (-inf) = nan`, `log 0 = -inf`, `log x = nan` for `x < 0`. -/
noncomputable def log : NpF → NpF
  | nan => nan
  | inf => inf
  | ninf => nan
  | fin a => if a < 0 then nan else if a = 0 then ninf else fin (Real.log a)

/-- `np.exp` element-wise. -/
noncomputable def exp : NpF → NpF
  | nan => nan
  | inf => inf
  | ninf => fin 0
  | fin a => fin (Real.exp a)

end NpF

/-- Element-wise `oetf_ROMMRGB` on IEEE values (float-output path,
`out_int=False`), mirroring the source line by line. -/
noncomputable def oetf_ROMMRGB_np (X : NpF) (bit_depth : ℤ) : NpF :=
  let I_max : NpF := .fin ((2 : ℝ) ^ bit_depth - 1)
  let X_p : NpF :=
    npWhere (X.lt (.fin E_t_ROMM)) (X * .fin 16 * I_max)
      (X.powr ((1 : ℝ) / 1.8) * I_max)
  X_p / I_max

/-- Element-wise `eotf_ROMMRGB` on IEEE values (float-input path,
`in_int=False`). -/
noncomputable def eotf_ROMMRGB_np (X_p0 : NpF) (bit_depth : ℤ) : NpF :=
  let I_max : NpF := .fin ((2 : ℝ) ^ bit_depth - 1)
  let X_p : NpF := X_p0 * I_max
  npWhere (X_p.lt (.fin (16 * E_t_ROMM * ((2 : ℝ) ^ bit_depth - 1))))
    (X_p / (.fin 16 * I_max)) ((X_p / I_max).powr (1.8 : ℝ))

/-- Element-wise `oetf_RIMMRGB` on IEEE values (float-output path).
The select conditions are all false at NaN, so NaN input falls through to
the numpy default `0`. -/
noncomputable def oetf_RIMMRGB_np (X : NpF) (bit_depth : ℤ) (E_clip : ℝ) :
    NpF :=
  let I_max : NpF := .fin ((2 : ℝ) ^ bit_depth - 1)
  let V_clip : ℝ := 1.099 * E_clip ^ (0.45 : ℝ) - 0.099
  let q : NpF := I_max / .fin V_clip
  let X_p_RIMM : NpF :=
    npSelect4 (X.lt (.fin 0.0)) (X.lt (.fin 0.018)) ((NpF.fin 0.018).le X)
      ((NpF.fin E_clip).lt X)
      (.fin 0) (.fin 4.5 * X) (.fin 1.099 * X.powr (0.45 : ℝ) - .fin 0.099)
      I_max (.fin 0)
  let X_p_RIMM2 : NpF := X_p_RIMM * q
  X_p_RIMM2 / I_max

/-- Element-wise `eotf_RIMMRGB` on IEEE values (float-input path).  The knee
threshold is the scalar `oetf_RIMMRGB(0.018, bit_depth, E_clip=E_clip)`. -/
noncomputable def eotf_RIMMRGB_np (X_p0 : NpF) (bit_depth : ℤ) (E_clip : ℝ) :
    NpF :=
  let I_max : NpF := .fin ((2 : ℝ) ^ bit_depth - 1)
  let X_p : NpF := X_p0 * I_max
  let V_clip : ℝ := 1.099 * E_clip ^ (0.45 : ℝ) - 0.099
  let m : NpF := .fin V_clip * X_p / I_max
  npWhere ((X_p / I_max).lt (.fin (oetf_RIMMRGB 0.018 bit_depth false E_clip)))
    (m / .fin 4.5) (((m + .fin 0.099) / .fin 1.099).powr ((1 : ℝ) / 0.45))

/-- Element-wise `log_encoding_ERIMMRGB` on IEEE values (float-output path).
The select conditions are all false at NaN, so NaN input falls through to
the numpy default `0`. -/
noncomputable def log_encoding_ERIMMRGB_np (X : NpF) (bit_depth : ℤ)
    (E_min : ℝ) (E_clip : ℝ) : NpF :=
  let I_max : NpF := .fin ((2 : ℝ) ^ bit_depth - 1)
  let E_t : ℝ := Real.exp 1 * E_min
  let X_p : NpF :=
    npSelect4 (X.lt (.fin 0.0)) (X.le (.fin E_t)) ((NpF.fin E_t).lt X)
      ((NpF.fin E_clip).lt X)
      (.fin 0)
      (I_max * .fin ((Real.log E_t - Real.log E_min) /
        (Real.log E_clip - Real.log E_min)) * (X / .fin E_t))
      (I_max * ((X.log - .fin (Real.log E_min)) /
        .fin (Real.log E_clip - Real.log E_min)))
      I_max (.fin 0)
  X_p / I_max

/-- Element-wise `log_decoding_ERIMMRGB` on IEEE values (float-input path). -/
noncomputable def log_decoding_ERIMMRGB_np (X_p0 : NpF) (bit_depth : ℤ)
    (E_min : ℝ) (E_clip : ℝ) : NpF :=
  let I_max : NpF := .fin ((2 : ℝ) ^ bit_depth - 1)
  let X_p : NpF := X_p0 * I_max
  let E_t : ℝ := Real.exp 1 * E_min
  npWhere
    (X_p.le (I_max * .fin ((Real.log E_t - Real.log E_min) /
      (Real.log E_clip - Real.log E_min))))
    (.fin ((Real.log E_clip - Real.log E_min) /
      (Real.log E_t - Real.log E_min)) * (X_p * .fin E_t / I_max))
    ((X_p / I_max * .fin (Real.log E_clip - Real.log E_min) +
      .fin (Real.log E_min)).exp)

/-! ## DSLR cameras RGB spectral sensitivities

The dataset module holds, for each camera, three per-channel mappings from
wavelength (nanometres) to normalised sensitivity, embedded below as
ordered association lists taken verbatim from the source. -/

/-- Modelled from the spec: `RGB_SpectralSensitivities` (defined in
`colour.characterisation`, not among the provided sources) is the
three-channel sensitivity record identified by a camera name, holding the
`red`, `green` and `blue` wavelength-to-sensitivity mappings. -/
structure RGB_SpectralSensitivities : Type where
  name : String
  red : List (ℝ × ℝ)
  green : List (ℝ × ℝ)
  blue : List (ℝ × ℝ)

def NIKON_5100_NPL_red : List (Real × Real) := [
  (380.0, 0.00156384299336578000),
  (385.0, 0.00189691771384825000),
  (390.0, 0.00000000000000000000),
  (395.0, 0.00000000000000000000),
  (400.0, 0.00000000000000000000),
  (405.0, 0.00071776703300973298),
  (410.0, 0.00292397466563330000),
  (415.0, 0.01293626801713740000),
  (420.0, 0.04959786481566520000),
  (425.0, 0.07607250435970400200),
  (430.0, 0.07658892708274399300),
  (435.0, 0.06833381956036009600),
  (440.0, 0.06131816189646559900),
  (445.0, 0.05473314457789760200),
  (450.0, 0.04886204743702320100),
  (455.0, 0.04284591974257399800),
  (460.0, 0.04022845332691499900),
  (465.0, 0.04340795992263239700),
  (470.0, 0.04762021431177430200),
  (475.0, 0.05077188480559390000),
  (480.0, 0.05280329597225499900),
  (485.0, 0.05257122025495090300),
  (490.0, 0.04789463902845950100),
  (495.0, 0.04823994170483859900),
  (500.0, 0.05022924089718029700),
  (505.0, 0.05507649735001429700),
  (510.0, 0.06370211901178619900),
  (515.0, 0.08038951305895999900),
  (520.0, 0.10038750399831201000),
  (525.0, 0.11861314902313400000),
  (530.0, 0.12360875120338000000),
  (535.0, 0.10306249932787701000),
  (540.0, 0.07634108360672720000),
  (545.0, 0.05278086364640900000),
  (550.0, 0.04118873831058649700),
  (555.0, 0.03904385351931050100),
  (560.0, 0.04254429440089119900),
  (565.0, 0.06021313241068020100),
  (570.0, 0.11179621705066800000),
  (575.0, 0.26967059703276203000),
  (580.0, 0.56450337990639099000),
  (585.0, 0.85360126947261405000),
  (590.0, 0.98103242181506201000),
  (595.0, 1.00000000000000000000),
  (600.0, 0.96307105371259005000),
  (605.0, 0.90552061898043101000),
  (610.0, 0.83427841652645296000),
  (615.0, 0.76798733762510296000),
  (620.0, 0.70366798041157996000),
  (625.0, 0.63916484476123703000),
  (630.0, 0.57081292173776299000),
  (635.0, 0.49581796193158800000),
  (640.0, 0.43833913452368101000),
  (645.0, 0.38896992260406899000),
  (650.0, 0.34295621205484700000),
  (655.0, 0.29278541836293998000),
  (660.0, 0.23770718073119301000),
  (665.0, 0.16491386803178501000),
  (670.0, 0.09128771706377150600),
  (675.0, 0.04205615047283590300),
  (680.0, 0.02058267877678380100),
  (685.0, 0.01028680596369610000),
  (690.0, 0.00540759846247261970),
  (695.0, 0.00272409261591003000),
  (700.0, 0.00127834798711079000),
  (705.0, 0.00078123118374132301),
  (710.0, 0.00047981421940270001),
  (715.0, 0.00049133356428571098),
  (720.0, 0.00017414897796340199),
  (725.0, 0.00012017462571764001),
  (730.0, 0.00000000000000000000),
  (735.0, 6.1199999999999997e-05),
  (740.0, 0.00000000000000000000),
  (745.0, 0.00000000000000000000),
  (750.0, 0.00031099754946016501),
  (755.0, 0.00000000000000000000),
  (760.0, 0.00000000000000000000),
  (765.0, 0.00000000000000000000),
  (770.0, 8.5599999999999994e-05),
  (775.0, 0.00013831372865247499),
  (780.0, 3.6199999999999999e-05)]

def NIKON_5100_NPL_green : List (Real × Real) := [
  (380.0, 0.00011500000000000000),
  (385.0, 0.00152114360178015000),
  (390.0, 0.00057430499183558695),
  (395.0, 0.00000000000000000000),
  (400.0, 0.00000000000000000000),
  (405.0, 0.00119722386224553000),
  (410.0, 0.00133571498448177000),
  (415.0, 0.01319431696052810100),
  (420.0, 0.06497102451249539600),
  (425.0, 0.11510308718828900000),
  (430.0, 0.13706582547087201000),
  (435.0, 0.15242852584030600000),
  (440.0, 0.16864005450745301000),
  (445.0, 0.18329934605049600000),
  (450.0, 0.19603263456229600000),
  (455.0, 0.21733653278361301000),
  (460.0, 0.25424357380995000000),
  (465.0, 0.30864811930649899000),
  (470.0, 0.37346871184252001000),
  (475.0, 0.42915806139893697000),
  (480.0, 0.45965432432137399000),
  (485.0, 0.47106435446394301000),
  (490.0, 0.48885616444524799000),
  (495.0, 0.53715178104087602000),
  (500.0, 0.61649118695883898000),
  (505.0, 0.70700638759968903000),
  (510.0, 0.80096424601366301000),
  (515.0, 0.88137256686267296000),
  (520.0, 0.93887792119838498000),
  (525.0, 0.98446559576523596000),
  (530.0, 1.00000000000000000000),
  (535.0, 0.99084026557129701000),
  (540.0, 0.96154626462922099000),
  (545.0, 0.92814388346877297000),
  (550.0, 0.88910231592076505000),
  (555.0, 0.83494222924161199000),
  (560.0, 0.77631807500187500000),
  (565.0, 0.70731424532056497000),
  (570.0, 0.63579620249170998000),
  (575.0, 0.56551528450380395000),
  (580.0, 0.49275517253522499000),
  (585.0, 0.42475654159075799000),
  (590.0, 0.35178931226078303000),
  (595.0, 0.27817849879541801000),
  (600.0, 0.21167353249961901000),
  (605.0, 0.15671644549433000000),
  (610.0, 0.11803962073050200000),
  (615.0, 0.08885249534231440300),
  (620.0, 0.07010184404853669900),
  (625.0, 0.05690899470893220200),
  (630.0, 0.04729879101895839700),
  (635.0, 0.04119589002556579800),
  (640.0, 0.03525207084991220000),
  (645.0, 0.03069313144532450100),
  (650.0, 0.02680396295683950100),
  (655.0, 0.02352430119871520100),
  (660.0, 0.02034633252474659900),
  (665.0, 0.01545848325340879900),
  (670.0, 0.00944075104617158980),
  (675.0, 0.00508102204063505970),
  (680.0, 0.00291019166901752010),
  (685.0, 0.00162657557793382010),
  (690.0, 0.00092251569139627796),
  (695.0, 0.00049743349969026901),
  (700.0, 0.00041215940263165701),
  (705.0, 0.00031692634104666300),
  (710.0, 0.00025621496960251102),
  (715.0, 0.00000000000000000000),
  (720.0, 0.00024353518865341200),
  (725.0, 6.0200000000000000e-05),
  (730.0, 0.00000000000000000000),
  (735.0, 0.00000000000000000000),
  (740.0, 0.00000000000000000000),
  (745.0, 1.7099999999999999e-05),
  (750.0, 5.2099999999999999e-05),
  (755.0, 8.8499999999999996e-05),
  (760.0, 0.00000000000000000000),
  (765.0, 0.00000000000000000000),
  (770.0, 0.00013799999999999999),
  (775.0, 0.0001786501727059410),
  (780.0, 4.2500000000000003e-05)]

def NIKON_5100_NPL_blue : List (Real × Real) := [
  (380.0, 0.00180956039402335990),
  (385.0, 0.00048982814544150399),
  (390.0, 0.00087943069176996504),
  (395.0, 0.00000000000000000000),
  (400.0, 0.00153246068848051000),
  (405.0, 0.00569805602282062030),
  (410.0, 0.01660828769874150200),
  (415.0, 0.07879120559214590500),
  (420.0, 0.36171350364994898000),
  (425.0, 0.65970462106512295000),
  (430.0, 0.75534360010359503000),
  (435.0, 0.81045312707380701000),
  (440.0, 0.87494523362472998000),
  (445.0, 0.92671273991178704000),
  (450.0, 0.96314088025989897000),
  (455.0, 0.98065048133510302000),
  (460.0, 1.00000000000000000000),
  (465.0, 0.99640467488711104000),
  (470.0, 0.98896988650084305000),
  (475.0, 0.95660139953157997000),
  (480.0, 0.90495886986980800000),
  (485.0, 0.83940927710351598000),
  (490.0, 0.75146259578963404000),
  (495.0, 0.66010202032260801000),
  (500.0, 0.56706879193613802000),
  (505.0, 0.47935094782603899000),
  (510.0, 0.39406273870351299000),
  (515.0, 0.31427061879449603000),
  (520.0, 0.24981663439426000000),
  (525.0, 0.20182351924718100000),
  (530.0, 0.16163395085177601000),
  (535.0, 0.13516143147333401000),
  (540.0, 0.10998875716043301000),
  (545.0, 0.08639435407789379500),
  (550.0, 0.06525313059219839400),
  (555.0, 0.04785595345227559900),
  (560.0, 0.03413932303860940000),
  (565.0, 0.02401990976851929900),
  (570.0, 0.01976793598476750100),
  (575.0, 0.01634844781073010000),
  (580.0, 0.01381733937020259900),
  (585.0, 0.01195294647966710000),
  (590.0, 0.01000909395820090100),
  (595.0, 0.00758776308929657970),
  (600.0, 0.00645584463521649970),
  (605.0, 0.00522978285684488030),
  (610.0, 0.00365998459503786990),
  (615.0, 0.00395538505488667040),
  (620.0, 0.00396835221654468030),
  (625.0, 0.00349138004486036990),
  (630.0, 0.00404302103181797010),
  (635.0, 0.00418929985295813000),
  (640.0, 0.00554676856500057980),
  (645.0, 0.00546423323547744030),
  (650.0, 0.00597382847392098970),
  (655.0, 0.00630906774763779000),
  (660.0, 0.00610412697742267980),
  (665.0, 0.00483655792375416000),
  (670.0, 0.00302664794586984980),
  (675.0, 0.00172169700987674990),
  (680.0, 0.00078065128657817595),
  (685.0, 0.00056963070848184102),
  (690.0, 0.00027523296133938200),
  (695.0, 0.00029672137857068598),
  (700.0, 0.00024951192304202899),
  (705.0, 8.5000000000000006e-05),
  (710.0, 0.00041916895092770603),
  (715.0, 0.00015331743444139899),
  (720.0, 1.8300000000000001e-05),
  (725.0, 0.00000000000000000000),
  (730.0, 0.00033869381945204901),
  (735.0, 0.00000000000000000000),
  (740.0, 0.00000000000000000000),
  (745.0, 0.00016527828734010200),
  (750.0, 0.00017755262214537101),
  (755.0, 0.00000000000000000000),
  (760.0, 2.4300000000000001e-05),
  (765.0, 6.1799999999999998e-05),
  (770.0, 0.00026260703183506501),
  (775.0, 0.00028050537004191899),
  (780.0, 0.00000000000000000000)]

def SIGMA_SDMERILL_NPL_red : List (Real × Real) := [
  (400.0, 0.00562107440608700020),
  (410.0, 0.00650335624511722000),
  (420.0, 0.07407911289140040000),
  (430.0, 0.04302295946292879900),
  (440.0, 0.03450952562247010200),
  (450.0, 0.01889156723434350100),
  (460.0, 0.00731107699680200000),
  (470.0, 0.04549915123096019700),
  (480.0, 0.05676752921111680200),
  (490.0, 0.13419592065917799000),
  (500.0, 0.16475268997837600000),
  (510.0, 0.21712641978639199000),
  (520.0, 0.30648343835824399000),
  (530.0, 0.34984579614888500000),
  (540.0, 0.44374258133259298000),
  (550.0, 0.44488860528126301000),
  (560.0, 0.47897575674702603000),
  (570.0, 0.50950291481073895000),
  (580.0, 0.59262909378530504000),
  (590.0, 0.67383327560697603000),
  (600.0, 0.71403771488106504000),
  (610.0, 0.86000761311495100000),
  (620.0, 0.89810302849565204000),
  (630.0, 1.00000000000000000000),
  (640.0, 0.99494213311245205000),
  (650.0, 0.92085127736137995000),
  (660.0, 0.18143311631425299000),
  (670.0, 0.00630978795372749960),
  (680.0, 0.00528874383171553000)]

def SIGMA_SDMERILL_NPL_green : List (Real × Real) := [
  (400.0, 0.00632809751263116970),
  (410.0, 0.00976180459591275040),
  (420.0, 0.02527177008261050100),
  (430.0, 0.08375118585311219800),
  (440.0, 0.14370381974360999000),
  (450.0, 0.18361168930882199000),
  (460.0, 0.40909478009952999000),
  (470.0, 0.51595564086176404000),
  (480.0, 0.60120664662705503000),
  (490.0, 0.67031679980136305000),
  (500.0, 0.75258747153475802000),
  (510.0, 0.84381384368944201000),
  (520.0, 0.90151724558812696000),
  (530.0, 0.91975030668767699000),
  (540.0, 0.96799429052157804000),
  (550.0, 0.95725231064041105000),
  (560.0, 0.95204791860047400000),
  (570.0, 0.97628014458399803000),
  (580.0, 0.97258624388955806000),
  (590.0, 1.00000000000000000000),
  (600.0, 0.96948452757777404000),
  (610.0, 0.95441319124850699000),
  (620.0, 0.93335435890921303000),
  (630.0, 0.92571406833636205000),
  (640.0, 0.88486439541503403000),
  (650.0, 0.76165184741615699000),
  (660.0, 0.14052437057150499000),
  (670.0, 0.00414367215817645990),
  (680.0, 0.00183198958165669010)]

def SIGMA_SDMERILL_NPL_blue : List (Real × Real) := [
  (400.0, 0.16215942413307899000),
  (410.0, 0.28549837804628603000),
  (420.0, 0.39690431060902098000),
  (430.0, 0.50831024317175599000),
  (440.0, 0.62211847246948804000),
  (450.0, 0.73742136245769496000),
  (460.0, 0.94538036670138004000),
  (470.0, 0.96441494770280400000),
  (480.0, 1.00000000000000000000),
  (490.0, 0.98598021188452500000),
  (500.0, 0.98340266357529005000),
  (510.0, 0.96969219567072595000),
  (520.0, 0.94280817402079797000),
  (530.0, 0.89664279918070899000),
  (540.0, 0.88444590220041897000),
  (550.0, 0.86791899071597101000),
  (560.0, 0.83375679584908402000),
  (570.0, 0.83204140240572999000),
  (580.0, 0.80054956384778198000),
  (590.0, 0.78289512474646505000),
  (600.0, 0.73946953007191796000),
  (610.0, 0.66718640174985699000),
  (620.0, 0.62043627806816704000),
  (630.0, 0.61116087876956704000),
  (640.0, 0.55173556195710605000),
  (650.0, 0.46538831744516401000),
  (660.0, 0.07961907836720690000),
  (670.0, 0.00059244446107236802),
  (680.0, 0.00468563680483140980)]

/-- The record stored under the key `"Nikon 5100 (NPL)"`. -/
def NIKON_5100_NPL : RGB_SpectralSensitivities :=
  ⟨"Nikon 5100 (NPL)", NIKON_5100_NPL_red, NIKON_5100_NPL_green,
    NIKON_5100_NPL_blue⟩

/-- The record stored under the key `"Sigma SDMerill (NPL)"`. -/
def SIGMA_SDMERILL_NPL : RGB_SpectralSensitivities :=
  ⟨"Sigma SDMerill (NPL)", SIGMA_SDMERILL_NPL_red, SIGMA_SDMERILL_NPL_green,
    SIGMA_SDMERILL_NPL_blue⟩

/-- Modelled from the spec: the error raised for an unrecognised camera
name (the spec's `NotFoundError`); it carries the offending key. -/
structure NotFoundError : Type where
  key : String
deriving DecidableEq

/-- Modelled from the spec: lower-casing of a camera-name string, as
Python's `str.lower` acts on the ASCII names involved (applied
character-wise). -/
def strLower (s : String) : String := ⟨s.data.map Char.toLower⟩

/-- Modelled from the spec: case-insensitive lookup as performed by
`CaseInsensitiveMapping` (defined in `colour.utilities`, not among the
provided sources): keys are compared after lower-casing, and an
unrecognised name fails with a `NotFoundError`. -/
def caseInsensitiveLookup (entries : List (String × RGB_SpectralSensitivities))
    (key : String) : Except NotFoundError RGB_SpectralSensitivities :=
  match entries.find? (fun e => strLower e.1 == strLower key) with
  | some e => .ok e.2
  | none => .error ⟨key⟩

/-- The store `DSL_CAMERAS_RGB_SPECTRAL_SENSITIVITIES`, holding exactly the
two camera records of the source. -/
def DSL_CAMERAS_RGB_SPECTRAL_SENSITIVITIES :
    List (String × RGB_SpectralSensitivities) :=
  [("Nikon 5100 (NPL)", NIKON_5100_NPL),
   ("Sigma SDMerill (NPL)", SIGMA_SDMERILL_NPL)]

/-! ## Numeric groundwork -/

lemma two_rpow_four : (2 : ℝ) ^ (4 : ℝ) = 16 := by
  rw [show (4 : ℝ) = ((4 : ℕ) : ℝ) by norm_num, Real.rpow_natCast]; norm_num

lemma E_t_ROMM_eq : E_t_ROMM = 1 / 512 := by
  rw [E_t_ROMM, ← two_rpow_four, ← Real.rpow_mul (by norm_num : (0:ℝ) ≤ 2)]
  rw [show ((4 : ℝ) * ((1.8 : ℝ) / (1 - 1.8))) = ((-9 : ℤ) : ℝ) by
    push_cast; norm_num]
  rw [Real.rpow_intCast]
  norm_num

lemma rimm_knee_core : (0.18 / 1.099 : ℝ) ≤ (0.018 : ℝ) ^ (0.45 : ℝ) := by
  have hb : (0 : ℝ) ≤ (0.018 : ℝ) ^ (0.45 : ℝ) := Real.rpow_nonneg (by norm_num) _
  have h20ne : (20 : ℕ) ≠ 0 := by norm_num
  refine le_of_pow_le_pow_left₀ h20ne hb ?_
  have h20 : ((0.018 : ℝ) ^ (0.45 : ℝ)) ^ (20 : ℕ) = (0.018 : ℝ) ^ (9 : ℕ) := by
    rw [← Real.rpow_natCast ((0.018 : ℝ) ^ (0.45 : ℝ)) 20,
      ← Real.rpow_mul (by norm_num : (0:ℝ) ≤ 0.018),
      show ((0.45 : ℝ) * ((20 : ℕ) : ℝ)) = ((9 : ℕ) : ℝ) by push_cast; norm_num,
      Real.rpow_natCast]
  rw [h20]
  norm_num

lemma rimm_knee_lb : (0.081 : ℝ) ≤ 1.099 * (0.018 : ℝ) ^ (0.45 : ℝ) - 0.099 := by
  nlinarith [rimm_knee_core]

lemma I_max_ge_one {bd : ℤ} (h : 1 ≤ bd) : (1 : ℝ) ≤ 2 ^ bd - 1 := by
  have h2 : (2 : ℝ) ^ (1 : ℤ) ≤ 2 ^ bd :=
    zpow_le_zpow_right₀ (by norm_num) h
  simp only [zpow_one] at h2
  linarith

lemma I_max_pos {bd : ℤ} (h : 1 ≤ bd) : (0 : ℝ) < 2 ^ bd - 1 :=
  lt_of_lt_of_le one_pos (I_max_ge_one h)

lemma I_max_ne_zero {bd : ℤ} (h : 1 ≤ bd) : (2 : ℝ) ^ bd - 1 ≠ 0 :=
  ne_of_gt (I_max_pos h)

lemma I_max_neg_of_bd_neg {bd : ℤ} (h : bd < 0) : (2 : ℝ) ^ bd - 1 < 0 := by
  have h2 : (2 : ℝ) ^ bd < 2 ^ (0 : ℤ) :=
    (zpow_lt_zpow_iff_right₀ (by norm_num)).mpr h
  simp only [zpow_zero] at h2
  linarith

lemma E_t_ROMM_pos : (0 : ℝ) < E_t_ROMM := by rw [E_t_ROMM_eq]; norm_num

/-- The two ROMM branches agree at the knee: in exact arithmetic
`E_t ** (1 / 1.8) = 16 * E_t` (both are `1 / 32`). -/
lemma E_t_ROMM_rpow : E_t_ROMM ^ ((1 : ℝ) / 1.8) = 16 * E_t_ROMM := by
  have h9 : E_t_ROMM = (2 : ℝ) ^ ((-9 : ℤ) : ℝ) := by
    rw [Real.rpow_intCast, E_t_ROMM_eq]; norm_num
  rw [h9, ← Real.rpow_mul (by norm_num : (0:ℝ) ≤ 2),
    show (((-9 : ℤ) : ℝ) * ((1 : ℝ) / 1.8)) = ((-5 : ℤ) : ℝ) by push_cast; norm_num,
    Real.rpow_intCast, Real.rpow_intCast]
  norm_num

/-- Inverting the ROMM gamma: `(X ** (1 / 1.8)) ** 1.8 = X` for `0 ≤ X`. -/
lemma rpow_romm_cancel {X : ℝ} (hX : 0 ≤ X) :
    (X ^ ((1 : ℝ) / 1.8)) ^ (1.8 : ℝ) = X := by
  rw [← Real.rpow_mul hX, show ((1 : ℝ) / 1.8 * 1.8) = (1 : ℝ) by norm_num,
    Real.rpow_one]

/-- Inverting the RIMM gamma: `(X ** 0.45) ** (1 / 0.45) = X` for `0 ≤ X`. -/
lemma rpow_rimm_cancel {X : ℝ} (hX : 0 ≤ X) :
    (X ^ (0.45 : ℝ)) ^ ((1 : ℝ) / 0.45) = X := by
  rw [← Real.rpow_mul hX, show ((0.45 : ℝ) * ((1 : ℝ) / 0.45)) = (1 : ℝ) by norm_num,
    Real.rpow_one]

/-- Exact ROMM round trip on the float path. -/
lemma romm_roundtrip_exact {X : ℝ} {bd : ℤ} (hbd : 1 ≤ bd) (hX : 0 ≤ X) :
    eotf_ROMMRGB (oetf_ROMMRGB X bd false) bd false = X := by
  have hI : (2 : ℝ) ^ bd - 1 ≠ 0 := I_max_ne_zero hbd
  have hIpos : (0 : ℝ) < 2 ^ bd - 1 := I_max_pos hbd
  simp only [oetf_ROMMRGB, eotf_ROMMRGB, npWhere, Bool.false_eq_true,
    if_false]
  by_cases h : X < E_t_ROMM
  · rw [if_pos h]
    rw [div_mul_cancel₀ _ hI]
    have hcond : X * 16 * (2 ^ bd - 1) < 16 * E_t_ROMM * (2 ^ bd - 1) := by
      have : X * 16 < 16 * E_t_ROMM := by nlinarith
      exact mul_lt_mul_of_pos_right this hIpos
    rw [if_pos hcond]
    field_simp
    ring
  · rw [if_neg h]
    rw [div_mul_cancel₀ _ hI]
    push_neg at h
    have hmono : E_t_ROMM ^ ((1 : ℝ) / 1.8) ≤ X ^ ((1 : ℝ) / 1.8) :=
      Real.rpow_le_rpow (le_of_lt E_t_ROMM_pos) h (by norm_num)
    have hcond : ¬ X ^ ((1 : ℝ) / 1.8) * (2 ^ bd - 1) <
        16 * E_t_ROMM * (2 ^ bd - 1) := by
      push_neg
      refine mul_le_mul_of_nonneg_right ?_ (le_of_lt hIpos)
      rw [← E_t_ROMM_rpow]
      exact hmono
    rw [if_neg hcond]
    rw [mul_div_cancel_right₀ _ hI]
    exact rpow_romm_cancel hX

lemma rimm_knee_pos : (0 : ℝ) < 1.099 * (0.018 : ℝ) ^ (0.45 : ℝ) - 0.099 :=
  lt_of_lt_of_le (by norm_num) rimm_knee_lb

lemma V_clip_ge_knee {E_clip : ℝ} (h : 0.018 ≤ E_clip) :
    1.099 * (0.018 : ℝ) ^ (0.45 : ℝ) - 0.099 ≤
      1.099 * E_clip ^ (0.45 : ℝ) - 0.099 := by
  have := Real.rpow_le_rpow (by norm_num : (0:ℝ) ≤ 0.018) h
    (by norm_num : (0:ℝ) ≤ 0.45)
  nlinarith

lemma V_clip_pos {E_clip : ℝ} (h : 0.018 ≤ E_clip) :
    (0 : ℝ) < 1.099 * E_clip ^ (0.45 : ℝ) - 0.099 :=
  lt_of_lt_of_le rimm_knee_pos (V_clip_ge_knee h)

/-- The knee threshold used by the RIMM inverse: the forward function at
`0.018` selects the gamma branch (the condition `X < 0.018` is strict), so
its float output is `(1.099 * 0.018 ** 0.45 - 0.099) / V_clip`. -/
lemma oetf_RIMMRGB_knee {bd : ℤ} {E_clip : ℝ} (hI : (2 : ℝ) ^ bd - 1 ≠ 0) :
    oetf_RIMMRGB 0.018 bd false E_clip =
      (1.099 * (0.018 : ℝ) ^ (0.45 : ℝ) - 0.099) /
        (1.099 * E_clip ^ (0.45 : ℝ) - 0.099) := by
  simp only [oetf_RIMMRGB, npSelect4, Bool.false_eq_true, if_false]
  rw [if_neg (by norm_num), if_neg (by norm_num), if_pos (by norm_num)]
  rw [mul_div_assoc', div_right_comm, mul_div_cancel_right₀ _ hI]

/-- Exact RIMM round trip on the float path: because the `X > E_clip` clip
branch of the encoder is dead code (`np.select` takes the first matching
condition and `X >= 0.018` matches first), the gamma branch extends beyond
`E_clip` and the round trip is exact on all of `[0, ∞)`. -/
lemma rimm_roundtrip_exact {X E_clip : ℝ} {bd : ℤ} (hbd : 1 ≤ bd)
    (hX : 0 ≤ X) (hEc : 0.018 ≤ E_clip) :
    eotf_RIMMRGB (oetf_RIMMRGB X bd false E_clip) bd false E_clip = X := by
  have hI : (2 : ℝ) ^ bd - 1 ≠ 0 := I_max_ne_zero hbd
  have hV : (0 : ℝ) < 1.099 * E_clip ^ (0.45 : ℝ) - 0.099 := V_clip_pos hEc
  have hVne : (1.099 * E_clip ^ (0.45 : ℝ) - 0.099) ≠ 0 := ne_of_gt hV
  have hknee := @oetf_RIMMRGB_knee bd E_clip hI
  have h0 : ¬ X < (0.0 : ℝ) := by
    simp only [not_lt]
    exact le_trans (by norm_num) hX
  by_cases h2 : X < 0.018
  · have he : oetf_RIMMRGB X bd false E_clip =
        4.5 * X / (1.099 * E_clip ^ (0.45 : ℝ) - 0.099) := by
      simp only [oetf_RIMMRGB, npSelect4, Bool.false_eq_true, if_false]
      rw [if_neg h0, if_pos h2]
      rw [mul_div_assoc', div_right_comm, mul_div_cancel_right₀ _ hI]
    simp only [eotf_RIMMRGB, npWhere, Bool.false_eq_true, if_false]
    rw [he, hknee, mul_div_cancel_right₀ _ hI]
    have hcond : 4.5 * X / (1.099 * E_clip ^ (0.45 : ℝ) - 0.099) <
        (1.099 * (0.018 : ℝ) ^ (0.45 : ℝ) - 0.099) /
          (1.099 * E_clip ^ (0.45 : ℝ) - 0.099) := by
      rw [div_lt_div_iff_of_pos_right hV]
      have := rimm_knee_lb
      linarith
    rw [if_pos hcond]
    field_simp
  · push_neg at h2
    have he : oetf_RIMMRGB X bd false E_clip =
        (1.099 * X ^ (0.45 : ℝ) - 0.099) /
          (1.099 * E_clip ^ (0.45 : ℝ) - 0.099) := by
      simp only [oetf_RIMMRGB, npSelect4, Bool.false_eq_true, if_false]
      rw [if_neg h0, if_neg (not_lt.mpr h2), if_pos h2]
      rw [mul_div_assoc', div_right_comm, mul_div_cancel_right₀ _ hI]
    simp only [eotf_RIMMRGB, npWhere, Bool.false_eq_true, if_false]
    rw [he, hknee, mul_div_cancel_right₀ _ hI]
    have hmono : (0.018 : ℝ) ^ (0.45 : ℝ) ≤ X ^ (0.45 : ℝ) :=
      Real.rpow_le_rpow (by norm_num) h2 (by norm_num)
    have hcond : ¬ ((1.099 * X ^ (0.45 : ℝ) - 0.099) /
        (1.099 * E_clip ^ (0.45 : ℝ) - 0.099) <
        (1.099 * (0.018 : ℝ) ^ (0.45 : ℝ) - 0.099) /
          (1.099 * E_clip ^ (0.45 : ℝ) - 0.099)) := by
      rw [not_lt, div_le_div_iff_of_pos_right hV]
      linarith
    rw [if_neg hcond]
    have hm : (1.099 * E_clip ^ (0.45 : ℝ) - 0.099) *
        ((1.099 * X ^ (0.45 : ℝ) - 0.099) /
          (1.099 * E_clip ^ (0.45 : ℝ) - 0.099) * (2 ^ bd - 1)) / (2 ^ bd - 1) =
        1.099 * X ^ (0.45 : ℝ) - 0.099 := by
      field_simp
    rw [hm, show ((1.099 * X ^ (0.45 : ℝ) - 0.099 + 0.099) / 1.099) =
      X ^ (0.45 : ℝ) by field_simp]
    exact rpow_rimm_cancel hX

lemma mul_mul_div_cancel_left (I A B : ℝ) (hI : I ≠ 0) :
    I * A * B / I = A * B := by
  field_simp
  ring

lemma erimm_log_span {E_min : ℝ} (h : 0 < E_min) :
    Real.log (Real.exp 1 * E_min) - Real.log E_min = 1 := by
  rw [Real.log_mul (Real.exp_ne_zero 1) (ne_of_gt h), Real.log_exp]
  ring

lemma erimm_L_pos {E_min E_clip : ℝ} (h : 0 < E_min) (hlt : E_min < E_clip) :
    (0 : ℝ) < Real.log E_clip - Real.log E_min :=
  sub_pos.mpr (Real.log_lt_log h hlt)

/-- Exact ERIMM round trip on the float path: the `X > E_clip` clip branch
of the encoder is dead code (`np.select` takes the first matching condition
and `X > E_t` matches first), so the log branch extends beyond `E_clip` and
the round trip is exact on all of `[0, ∞)`. -/
lemma erimm_roundtrip_exact {X E_min E_clip : ℝ} {bd : ℤ} (hbd : 1 ≤ bd)
    (hX : 0 ≤ X) (hEm : 0 < E_min) (hEc : E_min < E_clip) :
    log_decoding_ERIMMRGB (log_encoding_ERIMMRGB X bd false E_min E_clip)
      bd false E_min E_clip = X := by
  have hI : (2 : ℝ) ^ bd - 1 ≠ 0 := I_max_ne_zero hbd
  have hIpos : (0 : ℝ) < 2 ^ bd - 1 := I_max_pos hbd
  have hL : (0 : ℝ) < Real.log E_clip - Real.log E_min := erimm_L_pos hEm hEc
  have hLne : Real.log E_clip - Real.log E_min ≠ 0 := ne_of_gt hL
  have hEt : (0 : ℝ) < Real.exp 1 * E_min := mul_pos (Real.exp_pos 1) hEm
  have hEtne : Real.exp 1 * E_min ≠ 0 := ne_of_gt hEt
  have hD := erimm_log_span hEm
  have h0 : ¬ X < (0.0 : ℝ) := by
    simp only [not_lt]
    exact le_trans (by norm_num) hX
  by_cases h2 : X ≤ Real.exp 1 * E_min
  · have he : log_encoding_ERIMMRGB X bd false E_min E_clip =
        (1 / (Real.log E_clip - Real.log E_min)) * (X / (Real.exp 1 * E_min)) := by
      simp only [log_encoding_ERIMMRGB, npSelect4, Bool.false_eq_true, if_false]
      rw [if_neg h0, if_pos h2, hD]
      exact mul_mul_div_cancel_left _ _ _ hI
    simp only [log_decoding_ERIMMRGB, npWhere, Bool.false_eq_true, if_false]
    rw [he, hD]
    have hr : X / (Real.exp 1 * E_min) ≤ 1 := (div_le_one hEt).mpr h2
    have hcond : 1 / (Real.log E_clip - Real.log E_min) *
        (X / (Real.exp 1 * E_min)) * (2 ^ bd - 1) ≤
        (2 ^ bd - 1) * (1 / (Real.log E_clip - Real.log E_min)) := by
      have h1L : (0 : ℝ) < 1 / (Real.log E_clip - Real.log E_min) := by positivity
      nlinarith [mul_nonneg (mul_pos hIpos h1L).le (sub_nonneg.mpr hr)]
    rw [if_pos hcond]
    field_simp
    ring
  · push_neg at h2
    have hXpos : (0 : ℝ) < X := lt_trans hEt h2
    have he : log_encoding_ERIMMRGB X bd false E_min E_clip =
        (Real.log X - Real.log E_min) / (Real.log E_clip - Real.log E_min) := by
      simp only [log_encoding_ERIMMRGB, npSelect4, Bool.false_eq_true, if_false]
      rw [if_neg h0, if_neg (not_le.mpr h2), if_pos h2,
        mul_div_cancel_left₀ _ hI]
    simp only [log_decoding_ERIMMRGB, npWhere, Bool.false_eq_true, if_false]
    rw [he, hD]
    have hgt : 1 / (Real.log E_clip - Real.log E_min) <
        (Real.log X - Real.log E_min) / (Real.log E_clip - Real.log E_min) := by
      rw [div_lt_div_iff_of_pos_right hL]
      have hlog : Real.log (Real.exp 1 * E_min) < Real.log X :=
        Real.log_lt_log hEt h2
      linarith [hD]
    have hcond : ¬ ((Real.log X - Real.log E_min) /
        (Real.log E_clip - Real.log E_min) * (2 ^ bd - 1) ≤
        (2 ^ bd - 1) * (1 / (Real.log E_clip - Real.log E_min))) := by
      push_neg
      calc (2 ^ bd - 1) * (1 / (Real.log E_clip - Real.log E_min))
          < (2 ^ bd - 1) * ((Real.log X - Real.log E_min) /
              (Real.log E_clip - Real.log E_min)) := by
            exact mul_lt_mul_of_pos_left hgt hIpos
        _ = (Real.log X - Real.log E_min) /
              (Real.log E_clip - Real.log E_min) * (2 ^ bd - 1) := by ring
    rw [if_neg hcond]
    have harg : (Real.log X - Real.log E_min) /
        (Real.log E_clip - Real.log E_min) * (2 ^ bd - 1) / (2 ^ bd - 1) *
        (Real.log E_clip - Real.log E_min) + Real.log E_min = Real.log X := by
      field_simp
      ring
    rw [harg, Real.exp_log hXpos]

/-- A two-branch piecewise function is continuous at the split point when
both branches are and they agree there. -/
lemma continuousAt_npWhere_lt {a b : ℝ → ℝ} {c : ℝ}
    (ha : ContinuousAt a c) (hb : ContinuousAt b c) (hab : a c = b c) :
    ContinuousAt (fun X => npWhere (X < c) (a X) (b X)) c := by
  rw [← continuousWithinAt_univ, ← Set.Iic_union_Ici (a := c)]
  refine ContinuousWithinAt.union ?_ ?_
  · refine (ha.continuousWithinAt).congr (fun y hy => ?_) ?_
    · rcases lt_or_eq_of_le (Set.mem_Iic.mp hy) with h | h
      · simp [npWhere, h]
      · simp [npWhere, h, hab]
    · simp [npWhere, hab]
  · refine (hb.continuousWithinAt).congr (fun y hy => ?_) ?_
    · simp [npWhere, not_lt.mpr (Set.mem_Ici.mp hy)]
    · simp [npWhere]

lemma sixteen_E_t_rpow : (16 * E_t_ROMM) ^ (1.8 : ℝ) = E_t_ROMM := by
  have h5 : 16 * E_t_ROMM = (2 : ℝ) ^ ((-5 : ℤ) : ℝ) := by
    rw [Real.rpow_intCast, E_t_ROMM_eq]; norm_num
  rw [h5, ← Real.rpow_mul (by norm_num : (0:ℝ) ≤ 2),
    show (((-5 : ℤ) : ℝ) * (1.8 : ℝ)) = ((-9 : ℤ) : ℝ) by push_cast; norm_num,
    Real.rpow_intCast, E_t_ROMM_eq]
  norm_num

/-- `oetf_ROMMRGB` (float path) is continuous at the knee `E_t`: the two
branches agree there. -/
lemma oetf_ROMMRGB_continuousAt_knee (bd : ℤ) :
    ContinuousAt (fun X => oetf_ROMMRGB X bd false) E_t_ROMM := by
  simp only [oetf_ROMMRGB, Bool.false_eq_true, if_false]
  apply ContinuousAt.div_const
  apply continuousAt_npWhere_lt
  · exact (continuousAt_id.mul continuousAt_const).mul continuousAt_const
  · exact (Real.continuousAt_rpow_const _ _
      (Or.inl (by rw [E_t_ROMM_eq]; norm_num))).mul continuousAt_const
  · rw [E_t_ROMM_rpow]; ring

/-! ## Claims -/

/-- C1: for every `X` in `[0, 1]`, decoding the encoded value round-trips
within `1e-7` absolute tolerance for each of the three encode/decode pairs
`oetf_ROMMRGB`/`eotf_ROMMRGB`, `oetf_RIMMRGB`/`eotf_RIMMRGB` and
`log_encoding_ERIMMRGB`/`log_decoding_ERIMMRGB`, at any bit depth at least 1
and any parameters with `0.018 <= E_clip`, `0 < E_min < E_clip` (in exact
real arithmetic the round trips are exact). -/
theorem C1_roundtrip_within_tolerance (X E_clip E_min E_clipE : ℝ) (bd : ℤ)
    (hbd : 1 ≤ bd) (hX0 : 0 ≤ X) (hX1 : X ≤ 1) (hEc : 0.018 ≤ E_clip)
    (hEm : 0 < E_min) (hE : E_min < E_clipE) :
    |eotf_ROMMRGB (oetf_ROMMRGB X bd false) bd false - X| ≤ 1e-7 ∧
    |eotf_RIMMRGB (oetf_RIMMRGB X bd false E_clip) bd false E_clip - X| ≤
      1e-7 ∧
    |log_decoding_ERIMMRGB (log_encoding_ERIMMRGB X bd false E_min E_clipE)
      bd false E_min E_clipE - X| ≤ 1e-7 := by
  refine ⟨?_, ?_, ?_⟩
  · rw [romm_roundtrip_exact hbd hX0, sub_self, abs_zero]; norm_num
  · rw [rimm_roundtrip_exact hbd hX0 hEc, sub_self, abs_zero]; norm_num
  · rw [erimm_roundtrip_exact hbd hX0 hEm hE, sub_self, abs_zero]; norm_num

/-- Witness for C1 at `X = 0.18`, `bit_depth = 8` and the default
parameters. -/
theorem C1_roundtrip_within_tolerance_witness :
    ((1 : ℤ) ≤ 8 ∧ (0 : ℝ) ≤ 0.18 ∧ (0.18 : ℝ) ≤ 1 ∧ (0.018 : ℝ) ≤ 2 ∧
      (0 : ℝ) < 0.001 ∧ (0.001 : ℝ) < 316.2) ∧
    (|eotf_ROMMRGB (oetf_ROMMRGB 0.18 8 false) 8 false - 0.18| ≤ 1e-7 ∧
    |eotf_RIMMRGB (oetf_RIMMRGB 0.18 8 false 2) 8 false 2 - 0.18| ≤ 1e-7 ∧
    |log_decoding_ERIMMRGB (log_encoding_ERIMMRGB 0.18 8 false 0.001 316.2)
      8 false 0.001 316.2 - 0.18| ≤ 1e-7) :=
  ⟨by norm_num,
    C1_roundtrip_within_tolerance 0.18 2 0.001 316.2 8 (by norm_num)
      (by norm_num) (by norm_num) (by norm_num) (by norm_num) (by norm_num)⟩

/-- C9: `oetf_ProPhotoRGB` and `eotf_ProPhotoRGB` are extensionally equal to
`oetf_ROMMRGB` and `eotf_ROMMRGB` for every input, bit depth and int/float
flag (they are module-level aliases in the source). -/
theorem C9_prophoto_is_romm (X X_p : ℝ) (bd : ℤ) (oi ii : Bool) :
    oetf_ProPhotoRGB X bd oi = oetf_ROMMRGB X bd oi ∧
    eotf_ProPhotoRGB X_p bd ii = eotf_ROMMRGB X_p bd ii :=
  ⟨rfl, rfl⟩

/-- C10: the two ROMM OETF branches agree exactly at the knee
(`16 * E_t = E_t ** (1 / 1.8)` in exact real arithmetic), so the float-path
OETF is continuous at `X = E_t`, and the two `eotf_ROMMRGB` branches
`X_p / (16 * I_max)` and `(X_p / I_max) ** 1.8` agree at the code-value
threshold `X_p = 16 * E_t * I_max`. -/
theorem C10_knee_continuity :
    16 * E_t_ROMM = E_t_ROMM ^ ((1 : ℝ) / 1.8) ∧
    (∀ bd : ℤ, ContinuousAt (fun X => oetf_ROMMRGB X bd false) E_t_ROMM) ∧
    (∀ bd : ℤ, (2 : ℝ) ^ bd - 1 ≠ 0 →
      (16 * E_t_ROMM * ((2 : ℝ) ^ bd - 1)) / (16 * ((2 : ℝ) ^ bd - 1)) =
        ((16 * E_t_ROMM * ((2 : ℝ) ^ bd - 1)) / ((2 : ℝ) ^ bd - 1)) ^
          (1.8 : ℝ)) := by
  refine ⟨E_t_ROMM_rpow.symm, oetf_ROMMRGB_continuousAt_knee, fun bd hI => ?_⟩
  rw [mul_div_cancel_right₀ _ hI, sixteen_E_t_rpow]
  field_simp
  ring

/-- Witness for C10 at `bit_depth = 8`. -/
theorem C10_knee_continuity_witness :
    (16 * E_t_ROMM = E_t_ROMM ^ ((1 : ℝ) / 1.8) ∧
      ContinuousAt (fun X => oetf_ROMMRGB X 8 false) E_t_ROMM) ∧
    ((2 : ℝ) ^ (8 : ℤ) - 1 ≠ 0 ∧
      (16 * E_t_ROMM * ((2 : ℝ) ^ (8 : ℤ) - 1)) /
          (16 * ((2 : ℝ) ^ (8 : ℤ) - 1)) =
        ((16 * E_t_ROMM * ((2 : ℝ) ^ (8 : ℤ) - 1)) /
          ((2 : ℝ) ^ (8 : ℤ) - 1)) ^ (1.8 : ℝ)) :=
  ⟨⟨C10_knee_continuity.1, C10_knee_continuity.2.1 8⟩,
    ⟨by norm_num, C10_knee_continuity.2.2 8 (by norm_num)⟩⟩

/-- C5: on the float path, `eotf_RIMMRGB` selects the linear branch
`m / 4.5` exactly when the (normalised) input is below the threshold
obtained by calling the forward function `oetf_RIMMRGB` on `0.018` with the
same `bit_depth` and `E_clip`, and otherwise the gamma branch
`((m + 0.099) / 1.099) ** (1 / 0.45)`, with `m = V_clip * X_p`; moreover
that threshold is the forward gamma value at the knee,
`(1.099 * 0.018 ** 0.45 - 0.099) / V_clip` (`0.018` itself satisfies
`X >= 0.018`, not `X < 0.018`). -/
theorem C5_inverse_uses_forward_knee (X_p E_clip : ℝ) (bd : ℤ)
    (hbd : 1 ≤ bd) :
    eotf_RIMMRGB X_p bd false E_clip =
      (if X_p < oetf_RIMMRGB 0.018 bd false E_clip
        then (1.099 * E_clip ^ (0.45 : ℝ) - 0.099) * X_p / 4.5
        else (((1.099 * E_clip ^ (0.45 : ℝ) - 0.099) * X_p + 0.099) /
          1.099) ^ ((1 : ℝ) / 0.45)) ∧
    oetf_RIMMRGB 0.018 bd false E_clip =
      (1.099 * (0.018 : ℝ) ^ (0.45 : ℝ) - 0.099) /
        (1.099 * E_clip ^ (0.45 : ℝ) - 0.099) := by
  have hI : (2 : ℝ) ^ bd - 1 ≠ 0 := I_max_ne_zero hbd
  refine ⟨?_, oetf_RIMMRGB_knee hI⟩
  simp only [eotf_RIMMRGB, npWhere, Bool.false_eq_true, if_false]
  rw [mul_div_cancel_right₀ _ hI]
  have hm : (1.099 * E_clip ^ (0.45 : ℝ) - 0.099) * (X_p * (2 ^ bd - 1)) /
      (2 ^ bd - 1) = (1.099 * E_clip ^ (0.45 : ℝ) - 0.099) * X_p := by
    rw [mul_div_assoc, mul_div_cancel_right₀ X_p hI]
  rw [hm]

/-- Witness for C5 at `X_p = 0`, `bit_depth = 8`, `E_clip = 2`. -/
theorem C5_inverse_uses_forward_knee_witness :
    (1 : ℤ) ≤ 8 ∧
    (eotf_RIMMRGB 0 8 false 2 =
      (if (0 : ℝ) < oetf_RIMMRGB 0.018 8 false 2
        then (1.099 * (2 : ℝ) ^ (0.45 : ℝ) - 0.099) * 0 / 4.5
        else (((1.099 * (2 : ℝ) ^ (0.45 : ℝ) - 0.099) * 0 + 0.099) /
          1.099) ^ ((1 : ℝ) / 0.45)) ∧
    oetf_RIMMRGB 0.018 8 false 2 =
      (1.099 * (0.018 : ℝ) ^ (0.45 : ℝ) - 0.099) /
        (1.099 * (2 : ℝ) ^ (0.45 : ℝ) - 0.099)) :=
  ⟨by norm_num, C5_inverse_uses_forward_knee 0 2 8 (by norm_num)⟩

/-- C6: for every input and every bit depth at least 1, the integer output
path of each forward transfer function is the rounding of the float output
scaled back by `I_max = 2 ** bit_depth - 1`. -/
theorem C6_int_is_round_of_float (X E_clip E_min E_clipE : ℝ) (bd : ℤ)
    (hbd : 1 ≤ bd) :
    oetf_ROMMRGB X bd true =
      npRound (oetf_ROMMRGB X bd false * ((2 : ℝ) ^ bd - 1)) ∧
    oetf_RIMMRGB X bd true E_clip =
      npRound (oetf_RIMMRGB X bd false E_clip * ((2 : ℝ) ^ bd - 1)) ∧
    log_encoding_ERIMMRGB X bd true E_min E_clipE =
      npRound (log_encoding_ERIMMRGB X bd false E_min E_clipE *
        ((2 : ℝ) ^ bd - 1)) := by
  have hI : (2 : ℝ) ^ bd - 1 ≠ 0 := I_max_ne_zero hbd
  refine ⟨?_, ?_, ?_⟩
  · simp only [oetf_ROMMRGB, Bool.false_eq_true, if_false, if_true]
    rw [div_mul_cancel₀ _ hI]
  · simp only [oetf_RIMMRGB, Bool.false_eq_true, if_false, if_true]
    rw [div_mul_cancel₀ _ hI]
  · simp only [log_encoding_ERIMMRGB, Bool.false_eq_true, if_false, if_true]
    rw [div_mul_cancel₀ _ hI]

/-- Witness for C6 at `X = 0.18`, `bit_depth = 8` and default parameters. -/
theorem C6_int_is_round_of_float_witness :
    (1 : ℤ) ≤ 8 ∧
    (oetf_ROMMRGB 0.18 8 true =
      npRound (oetf_ROMMRGB 0.18 8 false * ((2 : ℝ) ^ (8 : ℤ) - 1)) ∧
    oetf_RIMMRGB 0.18 8 true 2 =
      npRound (oetf_RIMMRGB 0.18 8 false 2 * ((2 : ℝ) ^ (8 : ℤ) - 1)) ∧
    log_encoding_ERIMMRGB 0.18 8 true 0.001 316.2 =
      npRound (log_encoding_ERIMMRGB 0.18 8 false 0.001 316.2 *
        ((2 : ℝ) ^ (8 : ℤ) - 1))) :=
  ⟨by norm_num, C6_int_is_round_of_float 0.18 2 0.001 316.2 8 (by norm_num)⟩

/-- For any `X >= 0.018` the RIMM encoder takes the gamma branch: the
condition `X >= 0.018` is the first one of the `np.select` list to hold, so
the trailing `X > E_clip` clip condition is never reached. -/
lemma oetf_RIMMRGB_gamma {X E_clip : ℝ} {bd : ℤ}
    (hI : (2 : ℝ) ^ bd - 1 ≠ 0) (hX : 0.018 ≤ X) :
    oetf_RIMMRGB X bd false E_clip =
      (1.099 * X ^ (0.45 : ℝ) - 0.099) /
        (1.099 * E_clip ^ (0.45 : ℝ) - 0.099) := by
  simp only [oetf_RIMMRGB, npSelect4, Bool.false_eq_true, if_false]
  rw [if_neg (by linarith : ¬ X < (0.0 : ℝ)),
    if_neg (not_lt.mpr hX), if_pos hX]
  rw [mul_div_assoc', div_right_comm, mul_div_cancel_right₀ _ hI]

/-- C2 evaluation at the failing inputs: for `X = 3 > E_clip = 2` the RIMM
encoder selects the gamma branch, not the clip branch — `np.select` takes
the FIRST matching condition and `X >= 0.018` matches before `X > E_clip` —
so the normalised output exceeds `1` (the value `I_max` would normalise
to); likewise for `X = 400 > E_clip = 316.2` in the ERIMM encoder. -/
theorem C2_clip_branch_dead_eval :
    (oetf_RIMMRGB 3 8 false 2 =
      (1.099 * (3 : ℝ) ^ (0.45 : ℝ) - 0.099) /
        (1.099 * (2 : ℝ) ^ (0.45 : ℝ) - 0.099) ∧
      1 < oetf_RIMMRGB 3 8 false 2) ∧
    (log_encoding_ERIMMRGB 400 8 false 0.001 316.2 =
      (Real.log 400 - Real.log 0.001) /
        (Real.log 316.2 - Real.log 0.001) ∧
      1 < log_encoding_ERIMMRGB 400 8 false 0.001 316.2) := by
  have hI : (2 : ℝ) ^ (8 : ℤ) - 1 ≠ 0 := by norm_num
  have hV : (0 : ℝ) < 1.099 * (2 : ℝ) ^ (0.45 : ℝ) - 0.099 :=
    V_clip_pos (by norm_num)
  have hgamma := @oetf_RIMMRGB_gamma 3 2 8 hI (by norm_num)
  have hmono : (2 : ℝ) ^ (0.45 : ℝ) < (3 : ℝ) ^ (0.45 : ℝ) :=
    Real.rpow_lt_rpow (by norm_num) (by norm_num) (by norm_num)
  constructor
  · refine ⟨hgamma, ?_⟩
    rw [hgamma, one_lt_div hV]
    linarith
  · have hEt : Real.exp 1 * (0.001 : ℝ) < 400 := by
      have := Real.exp_one_lt_d9
      nlinarith
    have he : log_encoding_ERIMMRGB 400 8 false 0.001 316.2 =
        (Real.log 400 - Real.log 0.001) /
          (Real.log 316.2 - Real.log 0.001) := by
      simp only [log_encoding_ERIMMRGB, npSelect4, Bool.false_eq_true,
        if_false]
      rw [if_neg (by norm_num : ¬ (400 : ℝ) < 0.0),
        if_neg (not_le.mpr hEt), if_pos hEt,
        mul_div_cancel_left₀ _ hI]
    refine ⟨he, ?_⟩
    rw [he]
    have hlog1 : Real.log 0.001 < Real.log 316.2 :=
      Real.log_lt_log (by norm_num) (by norm_num)
    have hlog2 : Real.log 316.2 < Real.log 400 :=
      Real.log_lt_log (by norm_num) (by norm_num)
    rw [one_lt_div (by linarith)]
    linarith

/-- C3 counterexample: `oetf_ROMMRGB` does not clamp negative inputs to
zero — at `X = -1` (bit depth 8, float output) the linear branch applies
and the output is `-16`, a negative value. -/
theorem C3_counterexample_romm_negative :
    oetf_ROMMRGB (-1) 8 false = -16 ∧ oetf_ROMMRGB (-1) 8 false ≠ 0 := by
  have he : oetf_ROMMRGB (-1) 8 false = -16 := by
    simp only [oetf_ROMMRGB, npWhere, Bool.false_eq_true, if_false]
    rw [if_pos (by rw [E_t_ROMM_eq]; norm_num : (-1 : ℝ) < E_t_ROMM)]
    norm_num
  exact ⟨he, by rw [he]; norm_num⟩

/-- C3 amended: `oetf_RIMMRGB` and `log_encoding_ERIMMRGB` clamp every
negative input to `0` (their first `np.select` condition is `X < 0.0`),
while `oetf_ROMMRGB` instead applies its linear branch to negatives,
yielding the negative value `16 * X` on the float path; no function
raises. -/
theorem C3_negative_input_branches (X E_clip E_min E_clipE : ℝ) (bd : ℤ)
    (hbd : 1 ≤ bd) (hX : X < 0) :
    oetf_RIMMRGB X bd false E_clip = 0 ∧
    log_encoding_ERIMMRGB X bd false E_min E_clipE = 0 ∧
    oetf_ROMMRGB X bd false = 16 * X := by
  have hI : (2 : ℝ) ^ bd - 1 ≠ 0 := I_max_ne_zero hbd
  have hX0 : X < (0.0 : ℝ) := by
    exact lt_of_lt_of_le hX (by norm_num)
  refine ⟨?_, ?_, ?_⟩
  · simp only [oetf_RIMMRGB, npSelect4, Bool.false_eq_true, if_false]
    rw [if_pos hX0]
    simp
  · simp only [log_encoding_ERIMMRGB, npSelect4, Bool.false_eq_true,
      if_false]
    rw [if_pos hX0]
    simp
  · simp only [oetf_ROMMRGB, npWhere, Bool.false_eq_true, if_false]
    rw [if_pos (lt_trans hX E_t_ROMM_pos)]
    rw [mul_div_assoc, div_self hI, mul_one]
    ring

/-- Witness for the amended C3 at `X = -1`, `bit_depth = 8` and default
parameters. -/
theorem C3_negative_input_branches_witness :
    ((1 : ℤ) ≤ 8 ∧ (-1 : ℝ) < 0) ∧
    (oetf_RIMMRGB (-1) 8 false 2 = 0 ∧
    log_encoding_ERIMMRGB (-1) 8 false 0.001 316.2 = 0 ∧
    oetf_ROMMRGB (-1) 8 false = 16 * (-1)) :=
  ⟨by norm_num,
    C3_negative_input_branches (-1) 2 0.001 316.2 8 (by norm_num)
      (by norm_num)⟩

/-- C8 counterexample: no transfer function validates `bit_depth`.  At the
non-positive bit depth `-1` the ROMM encoder accepts the input and computes
the numeric result `0` instead of failing fast with an `InvalidArgument`
condition (the source contains no validation or error path at all). -/
theorem C8_counterexample_no_validation :
    oetf_ROMMRGB 0 (-1) false = 0 := by
  simp only [oetf_ROMMRGB, npWhere, Bool.false_eq_true, if_false]
  rw [if_pos E_t_ROMM_pos]
  norm_num

/-- C8 amended: the transfer functions perform no `bit_depth` validation;
for every negative `bit_depth` they accept the argument and compute a
numeric result (shown here at input `0`, where the three encoders and the
RIMM decoder all return `0`) rather than raising; and no function raises
for positive bit depths either (the embedding is total). -/
theorem C8_no_bit_depth_validation (bd : ℤ) (hbd : bd < 0) :
    oetf_ROMMRGB 0 bd false = 0 ∧
    oetf_RIMMRGB 0 bd false 2 = 0 ∧
    log_encoding_ERIMMRGB 0 bd false 0.001 316.2 = 0 ∧
    eotf_RIMMRGB 0 bd false 2 = 0 := by
  have hIneg : (2 : ℝ) ^ bd - 1 < 0 := I_max_neg_of_bd_neg hbd
  have hI : (2 : ℝ) ^ bd - 1 ≠ 0 := ne_of_lt hIneg
  refine ⟨?_, ?_, ?_, ?_⟩
  · simp only [oetf_ROMMRGB, npWhere, Bool.false_eq_true, if_false]
    rw [if_pos E_t_ROMM_pos]
    norm_num
  · simp only [oetf_RIMMRGB, npSelect4, Bool.false_eq_true, if_false]
    rw [if_neg (by norm_num : ¬ (0 : ℝ) < 0.0),
      if_pos (by norm_num : (0 : ℝ) < 0.018)]
    simp
  · simp only [log_encoding_ERIMMRGB, npSelect4, Bool.false_eq_true,
      if_false]
    rw [if_neg (by norm_num : ¬ (0 : ℝ) < 0.0),
      if_pos (by positivity : (0 : ℝ) ≤ Real.exp 1 * 0.001)]
    simp
  · have hknee := @oetf_RIMMRGB_knee bd 2 hI
    simp only [eotf_RIMMRGB, npWhere, Bool.false_eq_true, if_false]
    rw [hknee]
    rw [if_pos (by
      rw [zero_mul, zero_div]
      exact div_pos rimm_knee_pos (V_clip_pos (by norm_num)))]
    simp

/-- Witness for the amended C8 at `bit_depth = -1`. -/
theorem C8_no_bit_depth_validation_witness :
    (-1 : ℤ) < 0 ∧
    (oetf_ROMMRGB 0 (-1) false = 0 ∧
    oetf_RIMMRGB 0 (-1) false 2 = 0 ∧
    log_encoding_ERIMMRGB 0 (-1) false 0.001 316.2 = 0 ∧
    eotf_RIMMRGB 0 (-1) false 2 = 0) :=
  ⟨by norm_num, C8_no_bit_depth_validation (-1) (by norm_num)⟩

namespace NpF

theorem nan_mul (b : NpF) : NpF.nan * b = NpF.nan := by cases b <;> rfl

theorem mul_nan (a : NpF) : a * NpF.nan = NpF.nan := by cases a <;> rfl

theorem nan_div (b : NpF) : NpF.nan / b = NpF.nan := by cases b <;> rfl

theorem nan_add (b : NpF) : NpF.nan + b = NpF.nan := by cases b <;> rfl

theorem nan_powr {y : ℝ} (hy : y ≠ 0) : NpF.powr NpF.nan y = NpF.nan := by
  simp [NpF.powr, hy]

theorem exp_nan : NpF.exp NpF.nan = NpF.nan := rfl

theorem not_nan_lt (b : NpF) : ¬ NpF.lt NpF.nan b := by
  cases b <;> simp [NpF.lt]

theorem not_lt_nan (a : NpF) : ¬ NpF.lt a NpF.nan := by
  cases a <;> simp [NpF.lt]

theorem not_nan_le (b : NpF) : ¬ NpF.le NpF.nan b := by
  cases b <;> simp [NpF.le]

theorem not_le_nan (a : NpF) : ¬ NpF.le a NpF.nan := by
  cases a <;> simp [NpF.le]

theorem fin_mul_fin (a b : ℝ) : NpF.fin a * NpF.fin b = NpF.fin (a * b) := rfl

theorem fin_div_fin (a : ℝ) {b : ℝ} (hb : b ≠ 0) :
    NpF.fin a / NpF.fin b = NpF.fin (a / b) := by
  show NpF.div _ _ = _
  simp [NpF.div, hb]

end NpF

/-- C4 counterexample: a NaN element fed to `oetf_RIMMRGB` does NOT come
out as NaN: every `np.select` condition is false at NaN, so the selection
falls through to the default `0`, which the output scaling keeps at `0`. -/
theorem C4_counterexample_rimm_nan_is_zero :
    oetf_RIMMRGB_np NpF.nan 8 2 = NpF.fin 0 ∧ NpF.fin 0 ≠ NpF.nan := by
  have hV : (1.099 * (2 : ℝ) ^ (0.45 : ℝ) - 0.099) ≠ 0 :=
    ne_of_gt (V_clip_pos (by norm_num))
  constructor
  · simp only [oetf_RIMMRGB_np, npSelect4]
    rw [if_neg (NpF.not_nan_lt _), if_neg (NpF.not_nan_lt _),
      if_neg (NpF.not_le_nan _), if_neg (NpF.not_lt_nan _),
      NpF.fin_div_fin _ hV, NpF.fin_mul_fin, zero_mul,
      NpF.fin_div_fin _ (by norm_num : ((2 : ℝ) ^ (8 : ℤ) - 1) ≠ 0), zero_div]
  · simp

/-- C4 amended: NaN handling differs by branch-selection primitive.  The
four `np.where`-based functions (`oetf_ROMMRGB`, `eotf_ROMMRGB`,
`eotf_RIMMRGB`, `log_decoding_ERIMMRGB`) propagate a NaN element to a NaN
output; the two `np.select`-based encoders (`oetf_RIMMRGB`,
`log_encoding_ERIMMRGB`) map a NaN element to the select default `0`
instead; no function raises (every operation is total on IEEE values). -/
theorem C4_nan_handling (bd : ℤ) (E_clip E_min E_clipE : ℝ) (hbd : 1 ≤ bd)
    (hEc : 0.018 ≤ E_clip) :
    oetf_ROMMRGB_np NpF.nan bd = NpF.nan ∧
    eotf_ROMMRGB_np NpF.nan bd = NpF.nan ∧
    eotf_RIMMRGB_np NpF.nan bd E_clip = NpF.nan ∧
    log_decoding_ERIMMRGB_np NpF.nan bd E_min E_clipE = NpF.nan ∧
    oetf_RIMMRGB_np NpF.nan bd E_clip = NpF.fin 0 ∧
    log_encoding_ERIMMRGB_np NpF.nan bd E_min E_clipE = NpF.fin 0 := by
  have hI : (2 : ℝ) ^ bd - 1 ≠ 0 := I_max_ne_zero hbd
  have hV : (1.099 * E_clip ^ (0.45 : ℝ) - 0.099) ≠ 0 :=
    ne_of_gt (V_clip_pos hEc)
  refine ⟨?_, ?_, ?_, ?_, ?_, ?_⟩
  · simp only [oetf_ROMMRGB_np, npWhere]
    rw [if_neg (NpF.not_nan_lt _),
      NpF.nan_powr (by norm_num : ((1 : ℝ) / 1.8) ≠ 0),
      NpF.nan_mul, NpF.nan_div]
  · simp only [eotf_ROMMRGB_np, npWhere]
    rw [NpF.nan_mul, if_neg (NpF.not_nan_lt _), NpF.nan_div,
      NpF.nan_powr (by norm_num : (1.8 : ℝ) ≠ 0)]
  · simp only [eotf_RIMMRGB_np, npWhere]
    rw [NpF.nan_mul, NpF.mul_nan, NpF.nan_div,
      if_neg (NpF.not_nan_lt _), NpF.nan_add, NpF.nan_div,
      NpF.nan_powr (by norm_num : ((1 : ℝ) / 0.45) ≠ 0)]
  · simp only [log_decoding_ERIMMRGB_np, npWhere]
    rw [NpF.nan_mul, if_neg (NpF.not_nan_le _), NpF.nan_div, NpF.nan_mul,
      NpF.nan_add, NpF.exp_nan]
  · simp only [oetf_RIMMRGB_np, npSelect4]
    rw [if_neg (NpF.not_nan_lt _), if_neg (NpF.not_nan_lt _),
      if_neg (NpF.not_le_nan _), if_neg (NpF.not_lt_nan _),
      NpF.fin_div_fin _ hV, NpF.fin_mul_fin, zero_mul,
      NpF.fin_div_fin _ hI, zero_div]
  · simp only [log_encoding_ERIMMRGB_np, npSelect4]
    rw [if_neg (NpF.not_nan_lt _), if_neg (NpF.not_nan_le _),
      if_neg (NpF.not_lt_nan _), if_neg (NpF.not_lt_nan _),
      NpF.fin_div_fin _ hI, zero_div]

/-- Witness for the amended C4 at `bit_depth = 8` and default parameters. -/
theorem C4_nan_handling_witness :
    ((1 : ℤ) ≤ 8 ∧ (0.018 : ℝ) ≤ 2) ∧
    (oetf_ROMMRGB_np NpF.nan 8 = NpF.nan ∧
    eotf_ROMMRGB_np NpF.nan 8 = NpF.nan ∧
    eotf_RIMMRGB_np NpF.nan 8 2 = NpF.nan ∧
    log_decoding_ERIMMRGB_np NpF.nan 8 0.001 316.2 = NpF.nan ∧
    oetf_RIMMRGB_np NpF.nan 8 2 = NpF.fin 0 ∧
    log_encoding_ERIMMRGB_np NpF.nan 8 0.001 316.2 = NpF.fin 0) :=
  ⟨by norm_num, C4_nan_handling 8 2 0.001 316.2 (by norm_num) (by norm_num)⟩

/-- C7: lookup in the spectral-sensitivity store is case-insensitive and
total over exactly the two known camera names: any string that
case-insensitively equals `"Nikon 5100 (NPL)"` (resp.
`"Sigma SDMerill (NPL)"`) returns the same record as the canonical-case
key, and any other string fails with a `NotFoundError` carrying the key
and returns no record. -/
theorem C7_lookup_case_insensitive_total (s : String) :
    (strLower s = strLower "Nikon 5100 (NPL)" →
      caseInsensitiveLookup DSL_CAMERAS_RGB_SPECTRAL_SENSITIVITIES s =
        caseInsensitiveLookup DSL_CAMERAS_RGB_SPECTRAL_SENSITIVITIES
          "Nikon 5100 (NPL)" ∧
      caseInsensitiveLookup DSL_CAMERAS_RGB_SPECTRAL_SENSITIVITIES s =
        Except.ok NIKON_5100_NPL) ∧
    (strLower s = strLower "Sigma SDMerill (NPL)" →
      caseInsensitiveLookup DSL_CAMERAS_RGB_SPECTRAL_SENSITIVITIES s =
        caseInsensitiveLookup DSL_CAMERAS_RGB_SPECTRAL_SENSITIVITIES
          "Sigma SDMerill (NPL)" ∧
      caseInsensitiveLookup DSL_CAMERAS_RGB_SPECTRAL_SENSITIVITIES s =
        Except.ok SIGMA_SDMERILL_NPL) ∧
    (strLower s ≠ strLower "Nikon 5100 (NPL)" →
      strLower s ≠ strLower "Sigma SDMerill (NPL)" →
      caseInsensitiveLookup DSL_CAMERAS_RGB_SPECTRAL_SENSITIVITIES s =
        Except.error ⟨s⟩) := by
  refine ⟨fun h => ⟨?_, ?_⟩, fun h => ⟨?_, ?_⟩, fun h1 h2 => ?_⟩ <;>
    simp only [caseInsensitiveLookup, DSL_CAMERAS_RGB_SPECTRAL_SENSITIVITIES,
      List.find?]
  · rw [h]
    rw [show (strLower "Nikon 5100 (NPL)" ==
      strLower "Nikon 5100 (NPL)") = true by decide]
  · rw [h]
    rw [show (strLower "Nikon 5100 (NPL)" ==
      strLower "Nikon 5100 (NPL)") = true by decide]
  · rw [h]
    rw [show (strLower "Nikon 5100 (NPL)" ==
      strLower "Sigma SDMerill (NPL)") = false by decide,
      show (strLower "Sigma SDMerill (NPL)" ==
      strLower "Sigma SDMerill (NPL)") = true by decide]
  · rw [h]
    rw [show (strLower "Nikon 5100 (NPL)" ==
      strLower "Sigma SDMerill (NPL)") = false by decide,
      show (strLower "Sigma SDMerill (NPL)" ==
      strLower "Sigma SDMerill (NPL)") = true by decide]
  · rw [show (strLower "Nikon 5100 (NPL)" == strLower s) = false by
      exact beq_eq_false_iff_ne.mpr (fun hc => h1 hc.symm),
      show (strLower "Sigma SDMerill (NPL)" == strLower s) = false by
      exact beq_eq_false_iff_ne.mpr (fun hc => h2 hc.symm)]

/-- Witness for C7: the all-caps spelling finds the Nikon record, and
`"Canon 5D"` fails with a `NotFoundError`. -/
theorem C7_lookup_case_insensitive_total_witness :
    (caseInsensitiveLookup DSL_CAMERAS_RGB_SPECTRAL_SENSITIVITIES
        "NIKON 5100 (NPL)" = Except.ok NIKON_5100_NPL) ∧
    (caseInsensitiveLookup DSL_CAMERAS_RGB_SPECTRAL_SENSITIVITIES
        "Canon 5D" = Except.error ⟨"Canon 5D"⟩) :=
  ⟨((C7_lookup_case_insensitive_total "NIKON 5100 (NPL)").1 (by decide)).2,
    (C7_lookup_case_insensitive_total "Canon 5D").2.2 (by decide) (by decide)⟩
